import Mathlib

/-!
Verification development for the Toyota `CarState` vehicle-state decoder
(`src/selfdrive/car/toyota/carstate.py`).  The decoder is shallowly embedded
over exact rational arithmetic: every CAN signal value is a `ℚ`, the mutable
instance fields form `EngineState`, one call of `CarState.update` is a total
function from a configuration, a pre-tick state and the two bus frames to
either a tick-aborting Python exception (`Except.error`) or the post-tick
state, the produced `VehicleState` snapshot and the ordered list of
side-effect calls into the FrogPilot mode-policy object (`FpfEvent`s).
-/

/-- Control period `DT_CTRL` (10 ms), from `openpilot.common.realtime`. -/
def DT_CTRL : ℚ := 1 / 100

/-- Conversion factor `CV.KPH_TO_MS` (exactly 1/3.6). -/
def KPH_TO_MS : ℚ := 5 / 18

/-- Conversion factor `CV.MPH_TO_MS` (exactly 0.44704). -/
def MPH_TO_MS : ℚ := 1397 / 3125

/-- Modelled from the spec: `CRUISE_LONG_PRESS` is imported from
`openpilot.selfdrive.controls.lib.drive_helpers`, which is not part of the
staged sources; the spec fixes it as the 0.5 s short-press threshold at the
10 ms control period, i.e. 50 ticks. -/
def CRUISE_LONG_PRESS : ℕ := 50

/-- ZSS divergence threshold (`ZSS_THRESHOLD = 4.0`, carstate.py line 30). -/
def ZSS_THRESHOLD : ℚ := 4

/-- ZSS divergence-count cap (`ZSS_THRESHOLD_COUNT = 10`, line 31). -/
def ZSS_THRESHOLD_COUNT : ℕ := 10

/-- Modelled from the spec: the steering-angle-offset adaptive filter
(`openpilot.common.filter_simple.FirstOrderFilter`, not part of the staged
sources).  Per the spec it is a slow first-order low-pass (time constant
60 s, updated at the control period) carrying an explicit `initialized`
flag; its first `update` call adopts the input and marks it initialized. -/
structure FirstOrderFilter where
  x : ℚ
  initialized : Bool
deriving DecidableEq, Repr

/-- Filter gain for the 60 s time constant at `DT_CTRL`. -/
def filterAlpha : ℚ := DT_CTRL / (60 + DT_CTRL)

/-- Modelled from the spec: one update step of the adaptive filter.  An
uninitialized filter adopts the sample and becomes initialized; an
initialized one blends it in with gain `filterAlpha`. -/
def FirstOrderFilter.update (f : FirstOrderFilter) (v : ℚ) : FirstOrderFilter :=
  if f.initialized then ⟨(1 - filterAlpha) * f.x + filterAlpha * v, true⟩
  else ⟨v, true⟩

/-- Vehicle configuration (`self.CP`): the fingerprint's memberships in the
variant sets imported from `values.py` and the feature flags the staged code
reads, resolved to booleans. -/
structure CarConfig where
  inTSS2 : Bool
  inRadarACC : Bool
  inUnsupportedDSU : Bool
  isPriusV : Bool
  flagZSS : Bool
  flagSmartDSU : Bool
  flagRadarCanFilter : Bool
  flagDisableRadar : Bool
deriving DecidableEq, Repr

/-- The nine sign-recognition signals of an `RSA1`/`RSA2` message dict, and
also the shape of the assembled 9-field value set; `none` models a signal
absent from the message dict (Python `dict.get` returning `None`). -/
structure RsaFrame where
  tsgn1 : Option ℚ
  spdval1 : Option ℚ
  splsgn1 : Option ℚ
  tsgn2 : Option ℚ
  splsgn2 : Option ℚ
  tsgn3 : Option ℚ
  splsgn3 : Option ℚ
  tsgn4 : Option ℚ
  splsgn4 : Option ℚ
deriving DecidableEq, Repr

/-- The two `LKAS_HUD` fields read by the LKAS double-press detector;
`none` models a key absent from the copied dict. -/
structure LkasHud where
  ldaOnMessage : Option ℚ
  setMeX02 : Option ℚ
deriving DecidableEq, Repr

/-- Per-tick camera-bus frame (`cp_cam`): the signals the embedded code
reads from it. -/
structure CamFrame where
  lkasHud : LkasHud
  rsa1 : RsaFrame
  rsa2 : RsaFrame
  accControlAccType : ℚ
  accControlDistance : ℚ
deriving DecidableEq, Repr

/-- Per-tick main-bus frame (`cp`): the signals the embedded code reads
from it.  Wheel speeds are the already unit-converted scalars that
`get_wheel_speeds` returns (modelled from the spec, which fixes the wheel
speed inputs as unit-converted and the fusion as their arithmetic mean).
`pcmCruiseSmDistanceLines` is the integer-valued `DISTANCE_LINES` signal. -/
structure MainFrame where
  wheelSpeedFL : ℚ
  wheelSpeedFR : ℚ
  wheelSpeedRL : ℚ
  wheelSpeedRR : ℚ
  steerAngle : ℚ
  steerFraction : ℚ
  steerRate : ℚ
  torqueSensorAngle : ℚ
  steerAngleInitializing : Bool
  canValid : Bool
  dsuCruiseMainOn : ℚ
  pcmCruise2MainOn : ℚ
  pcmCruise2LowSpeedLockout : ℚ
  accControlAccType : ℚ
  sdsuFdButton : ℚ
  pcmCruiseSmDistanceLines : ℤ
  secondarySteerAngle : ℚ
deriving DecidableEq, Repr

/-- Per-tick FrogPilot toggles (`frogpilot_variables`) together with the
two `self.fpf` fields the personality-sync block reads. -/
structure FrogPilotVariables where
  experimental_mode_via_lkas : Bool
  conditional_experimental_mode : Bool
  experimental_mode_via_distance : Bool
  traffic_mode : Bool
  personalities_via_wheel : Bool
  force_mph_dashboard : Bool
  fpfPersonalityChangedViaUi : Bool
  fpfCurrentPersonality : ℤ
deriving DecidableEq, Repr

/-- Mutable `CarState` instance fields carried across ticks (the
EngineState of the spec).  `distance_pressed_counter`,
`distance_previously_pressed`, `personality_profile`,
`previous_personality_profile`, `distance_button` and
`lkas_previously_pressed` are initialized in the FrogPilot `CarStateBase`,
outside the staged sources; they are modelled from the spec as the button
long-press counter, previous-press flag and personality indices. -/
structure EngineState where
  accurate_steer_angle_seen : Bool
  angle_offset : FirstOrderFilter
  low_speed_lockout : Bool
  acc_type : ℚ
  lkas_hud : Option LkasHud
  lkas_previously_pressed : Bool
  profile_restored : Bool
  zss_compute : Bool
  zss_cruise_active_last : Bool
  zss_angle_offset : ℚ
  zss_threshold_count : ℕ
  traffic_signals : Option RsaFrame
  distance_pressed_counter : ℕ
  distance_previously_pressed : Bool
  personality_profile : ℤ
  previous_personality_profile : ℤ
  distance_button : Bool
deriving DecidableEq, Repr

/-- Output snapshot fields (`ret`) that the embedded code populates,
together with the speed limit written to `SpeedLimitController`. -/
structure VehicleState where
  vEgoRaw : ℚ
  standstill : Bool
  steeringAngleDeg : ℚ
  steeringAngleOffsetDeg : ℚ
  cruiseAvailable : Bool
  speedLimit : ℚ
deriving DecidableEq, Repr

/-- Side-effect calls into the FrogPilot mode-policy object, in program
order: one constructor per `self.fpf` method the staged code invokes. -/
inductive FpfEvent where
  | updateCestatusLkas
  | updateExperimentalMode
  | updateCestatusDistance
  | updateTrafficMode
  | distanceButtonFunction (profile : ℤ)
  | resetPersonalityChangedParam
deriving DecidableEq, Repr

/-- Python exceptions that abort a tick of `CarState.update`. -/
inductive TickError where
  | unboundLocalDistancePressed
  | speedLimitTypeError
deriving DecidableEq, Repr

/-- Result of the steering-angle calibration block (lines 94-109). -/
structure SteeringOut where
  seen : Bool
  filt : FirstOrderFilter
  angle : ℚ
  offsetDeg : ℚ
deriving DecidableEq, Repr

/-- Steering-angle calibration, carstate.py lines 94-109: sticky
`accurate_steer_angle_seen` tracking, the gated adaptive-filter update of
the torque-sensor/primary difference, and the bias-corrected angle once the
filter is initialized. -/
def steeringStage (s : EngineState) (cp : MainFrame) : SteeringOut :=
  let steeringAngleDeg := cp.steerAngle + cp.steerFraction
  let torque := cp.torqueSensorAngle
  let seen := s.accurate_steer_angle_seen ||
    (decide (|torque| > 1 / 1000) && !cp.steerAngleInitializing)
  if seen then
    let filt :=
      if |steeringAngleDeg| < 90 ∧ |cp.steerRate| < 100 ∧ cp.canValid = true then
        s.angle_offset.update (torque - steeringAngleDeg)
      else s.angle_offset
    if filt.initialized then ⟨seen, filt, torque - filt.x, filt.x⟩
    else ⟨seen, filt, steeringAngleDeg, 0⟩
  else ⟨seen, s.angle_offset, steeringAngleDeg, 0⟩

/-- Variant-dependent cruise availability (lines 132-141): `DSU_CRUISE`
`MAIN_ON` for unsupported-DSU cars, `PCM_CRUISE_2` `MAIN_ON` otherwise. -/
def selectCruiseAvailable (cfg : CarConfig) (cp : MainFrame) : Bool :=
  if cfg.inUnsupportedDSU then decide (cp.dsuCruiseMainOn ≠ 0)
  else decide (cp.pcmCruise2MainOn ≠ 0)

/-- The `cp_acc` bus selection (line 149): camera bus exactly for TSS2 cars
that are not radar-ACC cars. -/
def cpAccIsCam (cfg : CarConfig) : Bool := cfg.inTSS2 && !cfg.inRadarACC

/-- ACC-type resolution (lines 151-153): TSS2 with radar not disabled and
no smart-DSU retrofit reads `ACC_CONTROL.ACC_TYPE` from `cp_acc`; every
other configuration keeps the previously stored value. -/
def accTypeNext (cfg : CarConfig) (s : EngineState) (cp : MainFrame) (cam : CamFrame) : ℚ :=
  if cfg.inTSS2 && !cfg.flagDisableRadar then
    if !cfg.flagSmartDSU then
      if cpAccIsCam cfg then cam.accControlAccType else cp.accControlAccType
    else s.acc_type
  else s.acc_type

/-- Sticky low-speed-lockout update (lines 160-162), evaluated with the
ACC type already resolved for this tick. -/
def lowSpeedLockoutNext (cfg : CarConfig) (accType : ℚ) (s : EngineState)
    (cp : MainFrame) : Bool :=
  if (!cfg.inTSS2 && !cfg.inUnsupportedDSU) || (cfg.inTSS2 && decide (accType = 1)) then
    decide (cp.pcmCruise2LowSpeedLockout = 2)
  else s.low_speed_lockout

/-- Result of the LKAS double-press detector: the new
`lkas_previously_pressed` and the emitted events. -/
def lkasStage (cfg : CarConfig) (fv : FrogPilotVariables) (avail : Bool)
    (lkasHud : Option LkasHud) (prevPressed : Bool) : Bool × List FpfEvent :=
  if fv.experimental_mode_via_lkas && avail && !cfg.isPriusV then
    let pressed :=
      match lkasHud with
      | none => false
      | some h => decide (h.ldaOnMessage = some 1) || decide (h.setMeX02 = some 1)
    let evs :=
      if pressed && !prevPressed then
        [if fv.conditional_experimental_mode then FpfEvent.updateCestatusLkas
         else FpfEvent.updateExperimentalMode]
      else []
    (pressed, evs)
  else (prevPressed, [])

/-- Result of the distance-button block (lines 213-241). -/
structure DistanceOut where
  counter : ℕ
  prevPressed : Bool
  prevProfile : ℤ
  restored : Bool
  events : List FpfEvent
deriving DecidableEq, Repr

/-- Distance-button gesture tracking (lines 213-241).  `dp` is the local
`distance_pressed`: `none` when the assignment guard of lines 192-197 did
not run, in which case reading it under an available cruise state raises
`UnboundLocalError` and aborts the tick. -/
def distanceStage (fv : FrogPilotVariables) (avail : Bool) (dp : Option ℚ)
    (counter : ℕ) (prevPressed : Bool) (personality prevProfile : ℤ)
    (restored : Bool) : Except TickError DistanceOut :=
  if avail then
    match dp with
    | none => .error .unboundLocalDistancePressed
    | some d =>
      let step :
          ℕ × ℤ × Bool × List FpfEvent :=
        if d ≠ 0 then (counter + 1, prevProfile, restored, [])
        else if prevPressed then
          if counter < CRUISE_LONG_PRESS then
            (0, (personality + 2) % 3, false,
              [FpfEvent.distanceButtonFunction ((personality + 2) % 3)])
          else (0, prevProfile, restored, [])
        else (counter, prevProfile, restored, [])
      let counter1 := step.1
      let evs2 :=
        if counter1 = CRUISE_LONG_PRESS ∧ fv.experimental_mode_via_distance = true then
          [if fv.conditional_experimental_mode then FpfEvent.updateCestatusDistance
           else FpfEvent.updateExperimentalMode]
        else []
      let evs3 :=
        if counter1 = CRUISE_LONG_PRESS * 5 ∧ fv.traffic_mode = true then
          FpfEvent.updateTrafficMode ::
            [if fv.conditional_experimental_mode then FpfEvent.updateCestatusDistance
             else FpfEvent.updateExperimentalMode]
        else []
      .ok ⟨counter1, decide (d ≠ 0), step.2.1, step.2.2.1,
        step.2.2.2 ++ evs2 ++ evs3⟩
  else .ok ⟨counter, prevPressed, prevProfile, restored, []⟩

/-- Result of the wheel-personality sync block (lines 244-258). -/
structure PersonalityOut where
  personality : ℤ
  prevProfile : ℤ
  restored : Bool
  distButton : Bool
  events : List FpfEvent
deriving DecidableEq, Repr

/-- Wheel-personality sync (lines 244-258): reads `DISTANCE_LINES`, adopts
a UI-driven change, and flips the simulated distance-button flag while the
displayed profile differs from the confirmed one. -/
def personalityStage (fv : FrogPilotVariables) (avail : Bool)
    (distanceLines : ℤ) (personality prevProfile : ℤ)
    (restored distButton : Bool) : PersonalityOut :=
  if fv.personalities_via_wheel && avail then
    let personality1 := distanceLines - 1
    let uiStep : Bool × ℤ × List FpfEvent :=
      if fv.fpfPersonalityChangedViaUi then
        (false, fv.fpfCurrentPersonality, [FpfEvent.resetPersonalityChangedParam])
      else (restored, prevProfile, [])
    let restored2 := if personality1 = uiStep.2.1 then true else uiStep.1
    let distButton1 := if !restored2 then !distButton else distButton
    ⟨personality1, uiStep.2.1, restored2, distButton1, uiStep.2.2⟩
  else ⟨personality, prevProfile, restored, distButton, []⟩

/-- Assembly of the 9-field sign-recognition value set
(`update_traffic_signals` line 293): each signal from `RSA1` with `RSA2`
as fallback. -/
def assembleTrafficSignals (cam : CamFrame) : RsaFrame where
  tsgn1 := cam.rsa1.tsgn1 <|> cam.rsa2.tsgn1
  spdval1 := cam.rsa1.spdval1 <|> cam.rsa2.spdval1
  splsgn1 := cam.rsa1.splsgn1 <|> cam.rsa2.splsgn1
  tsgn2 := cam.rsa1.tsgn2 <|> cam.rsa2.tsgn2
  splsgn2 := cam.rsa1.splsgn2 <|> cam.rsa2.splsgn2
  tsgn3 := cam.rsa1.tsgn3 <|> cam.rsa2.tsgn3
  splsgn3 := cam.rsa1.splsgn3 <|> cam.rsa2.splsgn3
  tsgn4 := cam.rsa1.tsgn4 <|> cam.rsa2.tsgn4
  splsgn4 := cam.rsa1.splsgn4 <|> cam.rsa2.splsgn4

/-- Method `CarState.update_traffic_signals` (lines 291-296): overwrite the
cache exactly when the assembled set differs from it (`none` models the
initial empty dict, which differs from every assembled 9-key set). -/
def CarState.update_traffic_signals (s : EngineState) (cam : CamFrame) : EngineState :=
  let new_values := assembleTrafficSignals cam
  if some new_values ≠ s.traffic_signals then
    { s with traffic_signals := some new_values }
  else s

/-- Method `CarState.calculate_speed_limit` (lines 298-307).  A branch that
multiplies an absent (`None`) cached `SPDVAL1` raises `TypeError`. -/
def CarState.calculate_speed_limit (s : EngineState) (fv : FrogPilotVariables) :
    Except TickError ℚ :=
  let tsgn1 := s.traffic_signals.bind RsaFrame.tsgn1
  let spdval1 := s.traffic_signals.bind RsaFrame.spdval1
  if tsgn1 = some 1 ∧ fv.force_mph_dashboard = false then
    match spdval1 with
    | some v => .ok (v * KPH_TO_MS)
    | none => .error .speedLimitTypeError
  else if tsgn1 = some 36 ∨ fv.force_mph_dashboard = true then
    match spdval1 with
    | some v => .ok (v * MPH_TO_MS)
    | none => .error .speedLimitTypeError
  else .ok 0

/-- Result of the ZSS cross-validation block body (lines 267-287). -/
structure ZssOut where
  compute : Bool
  last : Bool
  offset : ℚ
  count : ℕ
  angle : ℚ
deriving DecidableEq, Repr

/-- Body of the ZSS block (lines 267-287), entered only while the flag is
set and the divergence count is below the cap: rising-edge recompute
arming, the pending offset recomputation, and the divergence check that
either counts a fault or applies the candidate angle. -/
def zssStage (s : EngineState) (avail : Bool) (zorro angle1 : ℚ) : ZssOut :=
  let arm : Bool × ℕ :=
    if avail = true ∧ s.zss_cruise_active_last = false then (true, 0)
    else (s.zss_compute, s.zss_threshold_count)
  let rec0 : Bool × ℚ :=
    if arm.1 = true ∧ |angle1| > 1 / 1000 ∧ |zorro| > 1 / 1000 then
      (false, zorro - angle1)
    else (arm.1, s.zss_angle_offset)
  let candidate := zorro - rec0.2
  if |angle1 - candidate| > ZSS_THRESHOLD then
    ⟨rec0.1, avail, rec0.2, arm.2 + 1, angle1⟩
  else
    ⟨rec0.1, avail, rec0.2, arm.2, candidate⟩

/-- Method `CarState.update` (lines 62-289), restricted to the state, the
snapshot fields and the side effects the embedded components touch, in
source order: kinematics, steering calibration, ACC type, low-speed
lockout, cruise availability, the `lkas_hud` copy, the `distance_pressed`
assignment guard, the LKAS and distance-button gesture blocks, the
wheel-personality sync, the traffic-sign accumulator with the derived
speed limit, and finally the ZSS cross-validator. -/
def CarState.update (cfg : CarConfig) (s : EngineState) (cp : MainFrame)
    (cam : CamFrame) (fv : FrogPilotVariables) :
    Except TickError (EngineState × VehicleState × List FpfEvent) :=
  let vEgoRaw := (cp.wheelSpeedFL + cp.wheelSpeedFR + cp.wheelSpeedRL + cp.wheelSpeedRR) / 4
  let standstill := decide (|vEgoRaw| < 1 / 1000)
  let st := steeringStage s cp
  let accType := accTypeNext cfg s cp cam
  let lowSpeed := lowSpeedLockoutNext cfg accType s cp
  let avail := selectCruiseAvailable cfg cp
  let lkasHud1 := if !cfg.isPriusV then some cam.lkasHud else s.lkas_hud
  let distance_pressed : Option ℚ :=
    if (cfg.inTSS2 && !cfg.inRadarACC) || (cfg.flagSmartDSU && !cfg.flagRadarCanFilter) then
      if cfg.inTSS2 && !cfg.inRadarACC then some cam.accControlDistance
      else some cp.sdsuFdButton
    else none
  let lk := lkasStage cfg fv avail lkasHud1 s.lkas_previously_pressed
  match distanceStage fv avail distance_pressed s.distance_pressed_counter
      s.distance_previously_pressed s.personality_profile
      s.previous_personality_profile s.profile_restored with
  | .error e => .error e
  | .ok d =>
    let pers := personalityStage fv avail cp.pcmCruiseSmDistanceLines
      s.personality_profile d.prevProfile d.restored s.distance_button
    let sMid : EngineState :=
      { s with
        accurate_steer_angle_seen := st.seen
        angle_offset := st.filt
        acc_type := accType
        low_speed_lockout := lowSpeed
        lkas_hud := lkasHud1
        lkas_previously_pressed := lk.1
        distance_pressed_counter := d.counter
        distance_previously_pressed := d.prevPressed
        personality_profile := pers.personality
        previous_personality_profile := pers.prevProfile
        profile_restored := pers.restored
        distance_button := pers.distButton }
    let s2 := CarState.update_traffic_signals sMid cam
    match CarState.calculate_speed_limit s2 fv with
    | .error e => .error e
    | .ok speedLimit =>
      let z : ZssOut :=
        if cfg.flagZSS = true ∧ s.zss_threshold_count < ZSS_THRESHOLD_COUNT then
          zssStage s avail cp.secondarySteerAngle st.angle
        else ⟨s.zss_compute, s.zss_cruise_active_last, s.zss_angle_offset,
          s.zss_threshold_count, st.angle⟩
      .ok
        ({ s2 with
            zss_compute := z.compute
            zss_cruise_active_last := z.last
            zss_angle_offset := z.offset
            zss_threshold_count := z.count },
         { vEgoRaw := vEgoRaw
           standstill := standstill
           steeringAngleDeg := z.angle
           steeringAngleOffsetDeg := st.offsetDeg
           cruiseAvailable := avail
           speedLimit := speedLimit },
         lk.2 ++ d.events ++ pers.events)

/-- Per-tick inputs of one `CarState.update` call. -/
structure TickInput where
  cp : MainFrame
  cam : CamFrame
  fv : FrogPilotVariables
deriving Repr

/-- Session run: iterate `CarState.update` over a list of tick inputs,
accumulating the emitted events; `none` when some tick raised. -/
def CarState.run (cfg : CarConfig) :
    EngineState → List TickInput → Option (EngineState × List FpfEvent)
  | s, [] => some (s, [])
  | s, i :: rest =>
    match CarState.update cfg s i.cp i.cam i.fv with
    | .error _ => none
    | .ok (s', _, evs) =>
      match CarState.run cfg s' rest with
      | none => none
      | some (s'', evs') => some (s'', evs ++ evs')

/-! Concrete fixtures used by counterexamples and witnesses. -/

/-- Sign-recognition message with every signal absent. -/
def emptyRsa : RsaFrame := ⟨none, none, none, none, none, none, none, none, none⟩

/-- Configuration of a ZSS-equipped non-TSS2 vehicle. -/
def cfgZ : CarConfig := ⟨false, false, false, false, true, false, false, false⟩

/-- Configuration of a TSS2 vehicle that is not a radar-ACC vehicle. -/
def cfgT : CarConfig := ⟨true, false, false, false, false, false, false, false⟩

/-- Configuration with every variant membership and flag off. -/
def cfgN : CarConfig := ⟨false, false, false, false, false, false, false, false⟩

/-- Camera frame with empty sign messages and a released distance button. -/
def cam0 : CamFrame := ⟨⟨none, none⟩, emptyRsa, emptyRsa, 1, 0⟩

/-- Camera frame like `cam0` but with the distance button held. -/
def camHeld : CamFrame := { cam0 with accControlDistance := 1 }

/-- FrogPilot toggles all off. -/
def fv0 : FrogPilotVariables := ⟨false, false, false, false, false, false, false, 0⟩

/-- FrogPilot toggles with only experimental-mode-via-distance on. -/
def fvDist : FrogPilotVariables := { fv0 with experimental_mode_via_distance := true }

/-- FrogPilot toggles with only the force-imperial dashboard override on. -/
def fvForce : FrogPilotVariables := { fv0 with force_mph_dashboard := true }

/-- Fresh engine state as `__init__` plus the spec-modelled FrogPilot
`CarStateBase` fields leave it. -/
def s0 : EngineState :=
  ⟨false, ⟨0, false⟩, false, 1, none, false, false, false, false, 0, 0, none, 0, false, 0, 0, false⟩

/-- Main-bus frame: steering angle 2, secondary sensor reading 1, cruise
unavailable, everything else quiet. -/
def cp0 : MainFrame := ⟨0, 0, 0, 0, 2, 0, 0, 0, false, true, 0, 0, 0, 1, 0, 0, 1⟩

/-- Main-bus frame like `cp0` but with `PCM_CRUISE_2.MAIN_ON` set. -/
def cpAvail : MainFrame := { cp0 with pcmCruise2MainOn := 1 }

/-- Traffic-sign cache entry for a metric speed sign of value 100. -/
def rsaKph : RsaFrame := { emptyRsa with tsgn1 := some 1, spdval1 := some 100 }

/-- Traffic-sign cache entry for an imperial speed sign of value 55. -/
def rsaMph : RsaFrame := { emptyRsa with tsgn1 := some 36, spdval1 := some 55 }

/-- Engine state caching a metric 100 sign. -/
def sKph : EngineState := { s0 with traffic_signals := some rsaKph }

/-- Engine state caching an imperial 55 sign. -/
def sMph : EngineState := { s0 with traffic_signals := some rsaMph }

/-- The alternate-driving-mode toggle call of lines 226-229 and 236-239. -/
def toggleEv (fv : FrogPilotVariables) : FpfEvent :=
  if fv.conditional_experimental_mode then FpfEvent.updateCestatusDistance
  else FpfEvent.updateExperimentalMode

/-- Main-bus frame with all four wheel speeds at 1. -/
def cpWheel : MainFrame := { cp0 with wheelSpeedFL := 1, wheelSpeedFR := 1, wheelSpeedRL := 1, wheelSpeedRR := 1 }

/-- Configuration of a TSS2, non-radar-ACC, ZSS-equipped vehicle. -/
def cfgZT : CarConfig := ⟨true, false, false, false, true, false, false, false⟩

/-- Engine state whose ZSS divergence counter has reached the cap. -/
def sZ10 : EngineState := { s0 with zss_threshold_count := 10 }

/-- Tick input with cruise available and the distance button held. -/
def tickHeld : TickInput := ⟨cpAvail, camHeld, fvDist⟩

/-- Tick input with cruise available and the distance button released. -/
def tickRelease : TickInput := ⟨cpAvail, cam0, fvDist⟩

/-- Tick input with cruise unavailable and everything quiet. -/
def tickQuiet : TickInput := ⟨cp0, cam0, fv0⟩

/-- Tick on which cruise is available, the distance button reads nonzero,
the tick's FrogPilot variables equal `fv`, and the camera sign messages
assemble to the all-absent set (so the derived speed limit stays 0). -/
def heldInput (cfg : CarConfig) (fv : FrogPilotVariables) (i : TickInput) : Prop :=
  i.fv = fv ∧ selectCruiseAvailable cfg i.cp = true ∧
  i.cam.accControlDistance ≠ 0 ∧ assembleTrafficSignals i.cam = emptyRsa

/-- Tick like `heldInput` but with the distance button reading zero. -/
def releaseInput (cfg : CarConfig) (fv : FrogPilotVariables) (i : TickInput) : Prop :=
  i.fv = fv ∧ selectCruiseAvailable cfg i.cp = true ∧
  i.cam.accControlDistance = 0 ∧ assembleTrafficSignals i.cam = emptyRsa

/-! Frame lemmas: `update_traffic_signals` only touches the cache field. -/

@[simp] lemma uts_traffic_signals (s : EngineState) (cam : CamFrame) :
    (CarState.update_traffic_signals s cam).traffic_signals =
      some (assembleTrafficSignals cam) := by
  simp only [CarState.update_traffic_signals]
  split
  · rfl
  · next h => exact (not_ne_iff.mp h).symm

@[simp] lemma uts_accurate_steer_angle_seen (s : EngineState) (cam : CamFrame) :
    (CarState.update_traffic_signals s cam).accurate_steer_angle_seen =
      s.accurate_steer_angle_seen := by
  simp only [CarState.update_traffic_signals]; split <;> rfl

@[simp] lemma uts_angle_offset (s : EngineState) (cam : CamFrame) :
    (CarState.update_traffic_signals s cam).angle_offset = s.angle_offset := by
  simp only [CarState.update_traffic_signals]; split <;> rfl

@[simp] lemma uts_low_speed_lockout (s : EngineState) (cam : CamFrame) :
    (CarState.update_traffic_signals s cam).low_speed_lockout = s.low_speed_lockout := by
  simp only [CarState.update_traffic_signals]; split <;> rfl

@[simp] lemma uts_acc_type (s : EngineState) (cam : CamFrame) :
    (CarState.update_traffic_signals s cam).acc_type = s.acc_type := by
  simp only [CarState.update_traffic_signals]; split <;> rfl

@[simp] lemma uts_zss_compute (s : EngineState) (cam : CamFrame) :
    (CarState.update_traffic_signals s cam).zss_compute = s.zss_compute := by
  simp only [CarState.update_traffic_signals]; split <;> rfl

@[simp] lemma uts_zss_cruise_active_last (s : EngineState) (cam : CamFrame) :
    (CarState.update_traffic_signals s cam).zss_cruise_active_last =
      s.zss_cruise_active_last := by
  simp only [CarState.update_traffic_signals]; split <;> rfl

@[simp] lemma uts_zss_angle_offset (s : EngineState) (cam : CamFrame) :
    (CarState.update_traffic_signals s cam).zss_angle_offset = s.zss_angle_offset := by
  simp only [CarState.update_traffic_signals]; split <;> rfl

@[simp] lemma uts_zss_threshold_count (s : EngineState) (cam : CamFrame) :
    (CarState.update_traffic_signals s cam).zss_threshold_count =
      s.zss_threshold_count := by
  simp only [CarState.update_traffic_signals]; split <;> rfl

@[simp] lemma uts_distance_pressed_counter (s : EngineState) (cam : CamFrame) :
    (CarState.update_traffic_signals s cam).distance_pressed_counter =
      s.distance_pressed_counter := by
  simp only [CarState.update_traffic_signals]; split <;> rfl

@[simp] lemma uts_distance_previously_pressed (s : EngineState) (cam : CamFrame) :
    (CarState.update_traffic_signals s cam).distance_previously_pressed =
      s.distance_previously_pressed := by
  simp only [CarState.update_traffic_signals]; split <;> rfl

@[simp] lemma uts_personality_profile (s : EngineState) (cam : CamFrame) :
    (CarState.update_traffic_signals s cam).personality_profile =
      s.personality_profile := by
  simp only [CarState.update_traffic_signals]; split <;> rfl

@[simp] lemma uts_previous_personality_profile (s : EngineState) (cam : CamFrame) :
    (CarState.update_traffic_signals s cam).previous_personality_profile =
      s.previous_personality_profile := by
  simp only [CarState.update_traffic_signals]; split <;> rfl

@[simp] lemma uts_profile_restored (s : EngineState) (cam : CamFrame) :
    (CarState.update_traffic_signals s cam).profile_restored = s.profile_restored := by
  simp only [CarState.update_traffic_signals]; split <;> rfl

@[simp] lemma uts_distance_button (s : EngineState) (cam : CamFrame) :
    (CarState.update_traffic_signals s cam).distance_button = s.distance_button := by
  simp only [CarState.update_traffic_signals]; split <;> rfl

@[simp] lemma uts_lkas_previously_pressed (s : EngineState) (cam : CamFrame) :
    (CarState.update_traffic_signals s cam).lkas_previously_pressed =
      s.lkas_previously_pressed := by
  simp only [CarState.update_traffic_signals]; split <;> rfl

@[simp] lemma uts_lkas_hud (s : EngineState) (cam : CamFrame) :
    (CarState.update_traffic_signals s cam).lkas_hud = s.lkas_hud := by
  simp only [CarState.update_traffic_signals]; split <;> rfl

/-! Helper lemmas on the steering calibration stage. -/

@[simp] lemma FirstOrderFilter.update_initialized (f : FirstOrderFilter) (v : ℚ) :
    (f.update v).initialized = true := by
  unfold FirstOrderFilter.update; split <;> rfl

lemma steeringStage_angle_of_uninit (s : EngineState) (cp : MainFrame)
    (h : s.angle_offset.initialized = false) :
    (steeringStage s cp).angle = cp.steerAngle + cp.steerFraction := by
  have hring : cp.torqueSensorAngle -
      (cp.torqueSensorAngle - (cp.steerAngle + cp.steerFraction)) =
      cp.steerAngle + cp.steerFraction := by ring
  by_cases hgate : |cp.steerAngle + cp.steerFraction| < 90 ∧ |cp.steerRate| < 100 ∧
      cp.canValid = true
  · simp [steeringStage, FirstOrderFilter.update, h, hgate, hring]
    try split <;> rfl
  · simp [steeringStage, h, hgate]

lemma steeringStage_of_init (s : EngineState) (cp : MainFrame)
    (hseen : s.accurate_steer_angle_seen = true)
    (hinit : s.angle_offset.initialized = true) :
    (steeringStage s cp).filt.initialized = true ∧
    (steeringStage s cp).angle =
      cp.torqueSensorAngle - (steeringStage s cp).filt.x ∧
    (steeringStage s cp).offsetDeg = (steeringStage s cp).filt.x := by
  by_cases hgate : |cp.steerAngle + cp.steerFraction| < 90 ∧ |cp.steerRate| < 100 ∧
      cp.canValid = true
  · simp [steeringStage, hseen, hgate]
  · simp [steeringStage, hseen, hgate, hinit]

/-- C8: whenever `CarState.update` returns a snapshot and the four
(unit-converted) wheel-speed inputs carry a common value `v`, the raw fused
vehicle speed of the snapshot is exactly `v` (the arithmetic mean of the
four), and the standstill flag is set exactly when `|v| < 1e-3`. -/
theorem C8_wheel_speed_fusion (cfg : CarConfig) (s : EngineState)
    (cp : MainFrame) (cam : CamFrame) (fv : FrogPilotVariables)
    (r : EngineState × VehicleState × List FpfEvent) (v : ℚ)
    (hok : CarState.update cfg s cp cam fv = .ok r)
    (h1 : cp.wheelSpeedFL = v) (h2 : cp.wheelSpeedFR = v)
    (h3 : cp.wheelSpeedRL = v) (h4 : cp.wheelSpeedRR = v) :
    r.2.1.vEgoRaw = v ∧ (r.2.1.standstill = true ↔ |v| < 1 / 1000) := by
  have hv : (v + v + v + v) / 4 = v := by ring
  simp only [CarState.update] at hok
  split at hok
  · exact Except.noConfusion hok
  · split at hok
    · exact Except.noConfusion hok
    · injection hok with hok
      subst hok
      constructor
      · simp [h1, h2, h3, h4, hv]
      · simp [h1, h2, h3, h4, hv]

/-- Witness for C8: with all four wheel speeds at 1 the snapshot reports
fused raw speed 1 and no standstill. -/
theorem C8_wheel_speed_fusion_witness :
    (CarState.update cfgN s0 cpWheel cam0 fv0).map
      (fun r => (r.2.1.vEgoRaw, r.2.1.standstill)) = .ok (1, false) := by
  obtain ⟨r, hok⟩ : ∃ r, CarState.update cfgN s0 cpWheel cam0 fv0 = .ok r := ⟨_, rfl⟩
  obtain ⟨hv, hs⟩ := C8_wheel_speed_fusion cfgN s0 cpWheel cam0 fv0 r 1 hok rfl rfl rfl rfl
  have hlt : ¬(|(1 : ℚ)| < 1 / 1000) := by norm_num
  have hsf : r.2.1.standstill = false := by
    cases hb : r.2.1.standstill
    · rfl
    · exact absurd (hs.mp hb) hlt
  rw [hok]
  simp [Except.map, hv, hsf]

/-- C7: the low-speed-lockout flag is sticky.  On every successful tick the
post-tick flag is reassigned from the dedicated signal (true exactly when
it equals 2) precisely when the vehicle is neither TSS2 nor
unsupported-DSU, or is TSS2 with the current (this-tick) ACC type equal to
1; on every other tick it keeps its previous value.  The snapshot's stored
ACC type is the one resolved this tick. -/
theorem C7_low_speed_lockout_sticky (cfg : CarConfig) (s : EngineState)
    (cp : MainFrame) (cam : CamFrame) (fv : FrogPilotVariables)
    (r : EngineState × VehicleState × List FpfEvent)
    (hok : CarState.update cfg s cp cam fv = .ok r) :
    r.1.acc_type = accTypeNext cfg s cp cam ∧
    r.1.low_speed_lockout =
      (if (cfg.inTSS2 = false ∧ cfg.inUnsupportedDSU = false) ∨
          (cfg.inTSS2 = true ∧ accTypeNext cfg s cp cam = 1) then
        decide (cp.pcmCruise2LowSpeedLockout = 2)
      else s.low_speed_lockout) := by
  simp only [CarState.update] at hok
  split at hok
  · exact Except.noConfusion hok
  · split at hok
    · exact Except.noConfusion hok
    · injection hok with hok
      subst hok
      constructor
      · simp
      · simp only [uts_low_speed_lockout]
        show lowSpeedLockoutNext cfg (accTypeNext cfg s cp cam) s cp = _
        unfold lowSpeedLockoutNext
        cases hT : cfg.inTSS2 <;> cases hU : cfg.inUnsupportedDSU <;>
          simp [hT, hU]

/-- Witness for C7: on a non-TSS2, non-unsupported-DSU vehicle the flag is
reassigned from the (quiet) lockout signal, giving `false`. -/
theorem C7_low_speed_lockout_witness :
    (CarState.update cfgN s0 cp0 cam0 fv0).map
      (fun r => (r.1.acc_type, r.1.low_speed_lockout)) = .ok (1, false) := by
  obtain ⟨r, hok⟩ : ∃ r, CarState.update cfgN s0 cp0 cam0 fv0 = .ok r := ⟨_, rfl⟩
  obtain ⟨ha, hl⟩ := C7_low_speed_lockout_sticky cfgN s0 cp0 cam0 fv0 r hok
  have ha2 : r.1.acc_type = 1 := by rw [ha]; decide
  have hl2 : r.1.low_speed_lockout = false := by rw [hl]; decide
  rw [hok]
  simp [Except.map, ha2, hl2]

/-- C2: on any configuration that is neither in `TSS2_CAR - RADAR_ACC_CAR`
nor flagged SMART_DSU-without-RADAR_CAN_FILTER, every tick with cruise
availability true aborts with the `UnboundLocalError` on
`distance_pressed`, so `CarState.update` returns no snapshot. -/
theorem C2_distance_pressed_unbound (cfg : CarConfig) (s : EngineState)
    (cp : MainFrame) (cam : CamFrame) (fv : FrogPilotVariables)
    (h1 : (cfg.inTSS2 && !cfg.inRadarACC) = false)
    (h2 : (cfg.flagSmartDSU && !cfg.flagRadarCanFilter) = false)
    (h3 : selectCruiseAvailable cfg cp = true) :
    CarState.update cfg s cp cam fv = .error .unboundLocalDistancePressed := by
  simp only [CarState.update, h1, h2, h3]
  simp [distanceStage]

/-- Witness for C2: a plain configuration with `PCM_CRUISE_2.MAIN_ON` set
aborts the tick. -/
theorem C2_distance_pressed_unbound_witness :
    CarState.update cfgN s0 cpAvail cam0 fv0 = .error .unboundLocalDistancePressed :=
  C2_distance_pressed_unbound cfgN s0 cpAvail cam0 fv0 rfl rfl rfl

/-- C9: `update_traffic_signals` overwrites the cache exactly when the
assembled 9-field set differs from it as a whole; on an identical re-send
the state is unchanged and the derived speed limit equals the previous
tick's. -/
theorem C9_traffic_cache_update (s : EngineState) (cam : CamFrame) :
    (some (assembleTrafficSignals cam) ≠ s.traffic_signals →
      CarState.update_traffic_signals s cam =
        { s with traffic_signals := some (assembleTrafficSignals cam) }) ∧
    (some (assembleTrafficSignals cam) = s.traffic_signals →
      CarState.update_traffic_signals s cam = s ∧
      ∀ fv, CarState.calculate_speed_limit (CarState.update_traffic_signals s cam) fv =
        CarState.calculate_speed_limit s fv) := by
  constructor
  · intro h
    simp [CarState.update_traffic_signals, h]
  · intro h
    have he : CarState.update_traffic_signals s cam = s := by
      simp [CarState.update_traffic_signals, h]
    exact ⟨he, fun fv => by rw [he]⟩

/-- Witness for C9: re-sending the cached all-absent set leaves the state
and the derived speed limit unchanged. -/
theorem C9_traffic_cache_update_witness :
    CarState.update_traffic_signals { s0 with traffic_signals := some emptyRsa } cam0 =
      { s0 with traffic_signals := some emptyRsa } ∧
    CarState.calculate_speed_limit
        (CarState.update_traffic_signals { s0 with traffic_signals := some emptyRsa } cam0) fv0 =
      CarState.calculate_speed_limit { s0 with traffic_signals := some emptyRsa } fv0 := by
  obtain ⟨he, hc⟩ := (C9_traffic_cache_update { s0 with traffic_signals := some emptyRsa } cam0).2 rfl
  exact ⟨he, hc fv0⟩

/-- C5 (amended): `calculate_speed_limit` — with a cached primary sign
type 1 and the imperial override off, the result is the cached `SPDVAL1`
times `KPH_TO_MS`; with sign type 36 or the override on, and a cached
`SPDVAL1`, it is `SPDVAL1` times `MPH_TO_MS`; with the override off and a
sign type that is neither 1 nor 36 (in particular an empty cache) the
result is exactly 0; with the override on and no cached `SPDVAL1` (in
particular an empty cache) the call raises `TypeError` instead of
returning 0. -/
theorem C5_calculate_speed_limit (s : EngineState) (fv : FrogPilotVariables) :
    (∀ v, s.traffic_signals.bind RsaFrame.tsgn1 = some 1 →
      fv.force_mph_dashboard = false →
      s.traffic_signals.bind RsaFrame.spdval1 = some v →
      CarState.calculate_speed_limit s fv = .ok (v * KPH_TO_MS)) ∧
    (∀ v, (s.traffic_signals.bind RsaFrame.tsgn1 = some 36 ∨
        fv.force_mph_dashboard = true) →
      s.traffic_signals.bind RsaFrame.spdval1 = some v →
      CarState.calculate_speed_limit s fv = .ok (v * MPH_TO_MS)) ∧
    (fv.force_mph_dashboard = false →
      s.traffic_signals.bind RsaFrame.tsgn1 ≠ some 1 →
      s.traffic_signals.bind RsaFrame.tsgn1 ≠ some 36 →
      CarState.calculate_speed_limit s fv = .ok 0) ∧
    (fv.force_mph_dashboard = true →
      s.traffic_signals.bind RsaFrame.spdval1 = none →
      CarState.calculate_speed_limit s fv = .error .speedLimitTypeError) := by
  refine ⟨fun v h1 hf hsp => ?_, fun v h36 hsp => ?_, fun hf h1 h36 => ?_,
    fun hf hsp => ?_⟩
  · simp [CarState.calculate_speed_limit, h1, hf, hsp]
  · rcases h36 with h36 | hforce
    · have hne : (36 : ℚ) ≠ 1 := by norm_num
      simp [CarState.calculate_speed_limit, h36, hsp, hne]
    · simp [CarState.calculate_speed_limit, hforce, hsp]
  · simp [CarState.calculate_speed_limit, hf, h1, h36]
  · simp [CarState.calculate_speed_limit, hf, hsp]

/-- Counterexample for C5: with an empty traffic-sign cache and the
force-imperial override set, the result is neither 0 nor any speed — the
call aborts with `TypeError` (Python multiplies `None` by the mph
factor). -/
theorem C5_counterexample :
    CarState.calculate_speed_limit s0 fvForce = .error .speedLimitTypeError ∧
    CarState.calculate_speed_limit s0 fvForce ≠ .ok 0 := by
  constructor
  · rfl
  · intro h
    exact Except.noConfusion
      ((rfl : CarState.calculate_speed_limit s0 fvForce =
        .error .speedLimitTypeError).symm.trans h)

/-- Witness for C5: sign type 1 with value 100 yields 250/9 m/s (≈27.78);
sign type 36 with value 55 yields 15367/625 m/s (≈24.59); an empty cache
without the override yields exactly 0. -/
theorem C5_calculate_speed_limit_witness :
    CarState.calculate_speed_limit sKph fv0 = .ok (100 * KPH_TO_MS) ∧
    (100 * KPH_TO_MS : ℚ) = 250 / 9 ∧
    CarState.calculate_speed_limit sMph fv0 = .ok (55 * MPH_TO_MS) ∧
    (55 * MPH_TO_MS : ℚ) = 15367 / 625 ∧
    CarState.calculate_speed_limit s0 fv0 = .ok 0 := by
  refine ⟨(C5_calculate_speed_limit sKph fv0).1 100 rfl rfl rfl,
    by norm_num [KPH_TO_MS],
    (C5_calculate_speed_limit sMph fv0).2.1 55 (Or.inl rfl) rfl,
    by norm_num [MPH_TO_MS],
    (C5_calculate_speed_limit s0 fv0).2.2.1 rfl (by decide) (by decide)⟩

/-- Helper: the ZSS cross-validator applies the candidate angle whenever
the flag is set, the counter is below the cap, no recompute is pending or
armed this tick, the stored offset is 0 and the divergence is within the
threshold. -/
lemma zss_candidate_angle (cfg : CarConfig) (s : EngineState)
    (cp : MainFrame) (cam : CamFrame) (fv : FrogPilotVariables)
    (r : EngineState × VehicleState × List FpfEvent)
    (hz : cfg.flagZSS = true)
    (hcount : s.zss_threshold_count < ZSS_THRESHOLD_COUNT)
    (hoff : s.zss_angle_offset = 0)
    (hcomp : s.zss_compute = false)
    (hnoedge : ¬(selectCruiseAvailable cfg cp = true ∧
      s.zss_cruise_active_last = false))
    (hclose : |(steeringStage s cp).angle - cp.secondarySteerAngle| ≤ ZSS_THRESHOLD)
    (hok : CarState.update cfg s cp cam fv = .ok r) :
    r.2.1.steeringAngleDeg = cp.secondarySteerAngle := by
  simp only [CarState.update] at hok
  split at hok
  · exact Except.noConfusion hok
  · split at hok
    · exact Except.noConfusion hok
    · injection hok with hok
      subst hok
      show (if cfg.flagZSS = true ∧ s.zss_threshold_count < ZSS_THRESHOLD_COUNT then
          zssStage s (selectCruiseAvailable cfg cp) cp.secondarySteerAngle
            (steeringStage s cp).angle
        else ⟨s.zss_compute, s.zss_cruise_active_last, s.zss_angle_offset,
          s.zss_threshold_count, (steeringStage s cp).angle⟩).angle =
        cp.secondarySteerAngle
      rw [if_pos ⟨hz, hcount⟩]
      simp [zssStage, hnoedge, hcomp, hoff]
      rw [if_neg (not_lt.mpr hclose)]

/-- C10: on a ZSS vehicle with the divergence counter below the cap, no
pending recompute and the stored offset still at its startup value 0, the
candidate angle — the raw secondary reading — replaces the snapshot's
steering angle on every tick without a cruise rising edge in which the
calibrated primary angle and the candidate differ by at most 4.0; there is
no calibration-not-ready suppression before any offset has been
computed. -/
theorem C10_zss_candidate_applied (cfg : CarConfig) (s : EngineState)
    (cp : MainFrame) (cam : CamFrame) (fv : FrogPilotVariables)
    (r : EngineState × VehicleState × List FpfEvent)
    (hz : cfg.flagZSS = true)
    (hcount : s.zss_threshold_count < ZSS_THRESHOLD_COUNT)
    (hoff : s.zss_angle_offset = 0)
    (hcomp : s.zss_compute = false)
    (hnoedge : ¬(selectCruiseAvailable cfg cp = true ∧
      s.zss_cruise_active_last = false))
    (hclose : |(steeringStage s cp).angle - cp.secondarySteerAngle| ≤ ZSS_THRESHOLD)
    (hok : CarState.update cfg s cp cam fv = .ok r) :
    r.2.1.steeringAngleDeg = cp.secondarySteerAngle :=
  zss_candidate_angle cfg s cp cam fv r hz hcount hoff hcomp hnoedge hclose hok

/-- Witness for C10: on the ZSS fixture (offset 0, no pending recompute,
primary 2, secondary 1, difference 1 ≤ 4) the snapshot angle is the raw
secondary reading 1. -/
theorem C10_zss_candidate_applied_witness :
    (CarState.update cfgZ s0 cp0 cam0 fv0).map
      (fun r => r.2.1.steeringAngleDeg) = .ok cp0.secondarySteerAngle := by
  obtain ⟨r, hok⟩ : ∃ r, CarState.update cfgZ s0 cp0 cam0 fv0 = .ok r := ⟨_, rfl⟩
  have hangle : (steeringStage s0 cp0).angle = 2 := by norm_num [steeringStage, s0, cp0]
  have hclose : |(steeringStage s0 cp0).angle - cp0.secondarySteerAngle| ≤ ZSS_THRESHOLD := by
    rw [hangle]
    norm_num [cp0, ZSS_THRESHOLD]
  have hnoedge : ¬(selectCruiseAvailable cfgZ cp0 = true ∧
      s0.zss_cruise_active_last = false) := by
    simp [selectCruiseAvailable, cfgZ, cp0]
  have h := C10_zss_candidate_applied cfgZ s0 cp0 cam0 fv0 r rfl (by decide)
    rfl rfl hnoedge hclose hok
  rw [hok]
  simp [Except.map, h]

/-- Counterexample for C1: on a ZSS-equipped vehicle the claim fails.  In
the fixture the adaptive filter is uninitialized, the raw primary angle is
2, yet the returned snapshot angle is 1 (the ZSS cross-validator applied
its candidate, secondary reading 1 minus startup offset 0), so before
filter initialization the snapshot angle does not equal the raw primary
angle on ZSS vehicles. -/
theorem C1_counterexample :
    s0.angle_offset.initialized = false ∧ cfgZ.flagZSS = true ∧
    (CarState.update cfgZ s0 cp0 cam0 fv0).map
      (fun r => r.2.1.steeringAngleDeg) = .ok 1 ∧
    cp0.steerAngle + cp0.steerFraction = 2 ∧ (1 : ℚ) ≠ 2 := by
  obtain ⟨r, hok⟩ : ∃ r, CarState.update cfgZ s0 cp0 cam0 fv0 = .ok r := ⟨_, rfl⟩
  have hangle : (steeringStage s0 cp0).angle = 2 := by norm_num [steeringStage, s0, cp0]
  have hclose : |(steeringStage s0 cp0).angle - cp0.secondarySteerAngle| ≤ ZSS_THRESHOLD := by
    rw [hangle]
    norm_num [cp0, ZSS_THRESHOLD]
  have hnoedge : ¬(selectCruiseAvailable cfgZ cp0 = true ∧
      s0.zss_cruise_active_last = false) := by
    simp [selectCruiseAvailable, cfgZ, cp0]
  have h := zss_candidate_angle cfgZ s0 cp0 cam0 fv0 r rfl (by decide)
    rfl rfl hnoedge hclose hok
  refine ⟨rfl, rfl, ?_, by norm_num [cp0], by norm_num⟩
  rw [hok]
  simp [Except.map, h]
  rfl

/-- C1 (amended): on every configuration without the ZSS flag, while the
adaptive filter is uninitialized at tick start the snapshot's steering
angle equals the raw primary angle `STEER_ANGLE + STEER_FRACTION` (no bias
is applied; on the tick the filter first initializes the corrected output
still coincides with the raw primary angle); once the filter is
initialized (with the accurate-angle-seen flag set, an invariant of every
reachable state), the snapshot angle is the torque-sensor angle minus the
filter's current offset and the offset is reported.  On ZSS-equipped
vehicles the ZSS cross-validator may subsequently replace the angle
(see the counterexample). -/
theorem C1_steering_bias_gating (cfg : CarConfig) (s : EngineState)
    (cp : MainFrame) (cam : CamFrame) (fv : FrogPilotVariables)
    (r : EngineState × VehicleState × List FpfEvent)
    (hz : cfg.flagZSS = false)
    (hok : CarState.update cfg s cp cam fv = .ok r) :
    (s.angle_offset.initialized = false →
      r.2.1.steeringAngleDeg = cp.steerAngle + cp.steerFraction) ∧
    (s.angle_offset.initialized = true → s.accurate_steer_angle_seen = true →
      r.2.1.steeringAngleDeg =
        cp.torqueSensorAngle - (steeringStage s cp).filt.x ∧
      r.2.1.steeringAngleOffsetDeg = (steeringStage s cp).filt.x) := by
  have hzc : ¬(cfg.flagZSS = true ∧
      s.zss_threshold_count < ZSS_THRESHOLD_COUNT) := by
    simp [hz]
  simp only [CarState.update] at hok
  split at hok
  · exact Except.noConfusion hok
  · split at hok
    · exact Except.noConfusion hok
    · injection hok with hok
      subst hok
      constructor
      · intro h
        show (if cfg.flagZSS = true ∧ s.zss_threshold_count < ZSS_THRESHOLD_COUNT then
            zssStage s (selectCruiseAvailable cfg cp) cp.secondarySteerAngle
              (steeringStage s cp).angle
          else ⟨s.zss_compute, s.zss_cruise_active_last, s.zss_angle_offset,
            s.zss_threshold_count, (steeringStage s cp).angle⟩).angle =
          cp.steerAngle + cp.steerFraction
        rw [if_neg hzc]
        exact steeringStage_angle_of_uninit s cp h
      · intro hi hs
        obtain ⟨h1, h2, h3⟩ := steeringStage_of_init s cp hs hi
        constructor
        · show (if cfg.flagZSS = true ∧ s.zss_threshold_count < ZSS_THRESHOLD_COUNT then
              zssStage s (selectCruiseAvailable cfg cp) cp.secondarySteerAngle
                (steeringStage s cp).angle
            else ⟨s.zss_compute, s.zss_cruise_active_last, s.zss_angle_offset,
              s.zss_threshold_count, (steeringStage s cp).angle⟩).angle =
            cp.torqueSensorAngle - (steeringStage s cp).filt.x
          rw [if_neg hzc]
          exact h2
        · exact h3

/-- Witness for C1 (amended): on a non-ZSS configuration with the filter
uninitialized the snapshot angle is the raw primary angle 2. -/
theorem C1_steering_bias_gating_witness :
    (CarState.update cfgN s0 cp0 cam0 fv0).map
      (fun r => r.2.1.steeringAngleDeg) = .ok (cp0.steerAngle + cp0.steerFraction) := by
  obtain ⟨r, hok⟩ : ∃ r, CarState.update cfgN s0 cp0 cam0 fv0 = .ok r := ⟨_, rfl⟩
  have h := (C1_steering_bias_gating cfgN s0 cp0 cam0 fv0 r rfl hok).1 rfl
  rw [hok]
  simp [Except.map, h]

/-- Helper: once the divergence counter has reached the cap, a tick leaves
every ZSS field untouched and the snapshot angle is the calibrator output
(the secondary sensor is not consulted). -/
lemma zss_frozen_tick (cfg : CarConfig) (s : EngineState) (cp : MainFrame)
    (cam : CamFrame) (fv : FrogPilotVariables)
    (r : EngineState × VehicleState × List FpfEvent)
    (hok : CarState.update cfg s cp cam fv = .ok r)
    (hcap : ZSS_THRESHOLD_COUNT ≤ s.zss_threshold_count) :
    r.1.zss_threshold_count = s.zss_threshold_count ∧
    r.1.zss_angle_offset = s.zss_angle_offset ∧
    r.1.zss_compute = s.zss_compute ∧
    r.1.zss_cruise_active_last = s.zss_cruise_active_last ∧
    r.2.1.steeringAngleDeg = (steeringStage s cp).angle := by
  have hzc : ¬(cfg.flagZSS = true ∧
      s.zss_threshold_count < ZSS_THRESHOLD_COUNT) :=
    fun h => absurd h.2 (not_lt.mpr hcap)
  simp only [CarState.update] at hok
  split at hok
  · exact Except.noConfusion hok
  · split at hok
    · exact Except.noConfusion hok
    · injection hok with hok
      subst hok
      simp only [if_neg hzc]
      simp

/-- C3: once the ZSS divergence counter has reached the cap of 10, the
secondary sensor is never consulted again for the remainder of the
session: every later successful tick leaves the counter, the offset, the
recompute flag and the edge-tracking flag unchanged (in particular no
cruise-availability edge re-arms them) and returns the calibrator's angle
untouched by the secondary signal; the same holds across any multi-tick
run. -/
theorem C3_zss_permanent_disable :
    (∀ cfg s cp cam fv r, CarState.update cfg s cp cam fv = .ok r →
      ZSS_THRESHOLD_COUNT ≤ s.zss_threshold_count →
      r.1.zss_threshold_count = s.zss_threshold_count ∧
      r.1.zss_angle_offset = s.zss_angle_offset ∧
      r.1.zss_compute = s.zss_compute ∧
      r.1.zss_cruise_active_last = s.zss_cruise_active_last ∧
      r.2.1.steeringAngleDeg = (steeringStage s cp).angle) ∧
    (∀ cfg s inputs p, CarState.run cfg s inputs = some p →
      ZSS_THRESHOLD_COUNT ≤ s.zss_threshold_count →
      p.1.zss_threshold_count = s.zss_threshold_count ∧
      p.1.zss_angle_offset = s.zss_angle_offset ∧
      p.1.zss_compute = s.zss_compute ∧
      p.1.zss_cruise_active_last = s.zss_cruise_active_last) := by
  refine ⟨fun cfg s cp cam fv r hok hcap =>
    zss_frozen_tick cfg s cp cam fv r hok hcap, ?_⟩
  intro cfg s inputs
  induction inputs generalizing s with
  | nil =>
    intro p hrun hcap
    simp only [CarState.run] at hrun
    injection hrun with hrun
    subst hrun
    exact ⟨rfl, rfl, rfl, rfl⟩
  | cons i rest ih =>
    intro p hrun hcap
    simp only [CarState.run] at hrun
    split at hrun
    · exact Option.noConfusion hrun
    · rename_i s1 ret1 evs1 htrip
      split at hrun
      · exact Option.noConfusion hrun
      · rename_i pr s2 evs2 hpr
        injection hrun with hrun
        subst hrun
        obtain ⟨h1, h2, h3, h4, -⟩ :=
          zss_frozen_tick cfg s i.cp i.cam i.fv (s1, ret1, evs1) htrip hcap
        have hcap1 : ZSS_THRESHOLD_COUNT ≤ s1.zss_threshold_count := by
          rw [h1]; exact hcap
        obtain ⟨g1, g2, g3, g4⟩ := ih s1 (s2, evs2) hpr hcap1
        exact ⟨g1.trans h1, g2.trans h2, g3.trans h3, g4.trans h4⟩

/-- Witness for C3: with the counter already at 10 on a ZSS vehicle, one
tick keeps the counter at 10 and returns the calibrator angle 2 (not the
secondary reading 1), and a one-tick run keeps the counter at 10. -/
theorem C3_zss_permanent_disable_witness :
    (CarState.update cfgZ sZ10 cp0 cam0 fv0).map
      (fun r => (r.1.zss_threshold_count, r.2.1.steeringAngleDeg)) = .ok (10, 2) ∧
    (CarState.run cfgZ sZ10 [tickQuiet]).map
      (fun p => p.1.zss_threshold_count) = some 10 := by
  constructor
  · obtain ⟨r, hok⟩ : ∃ r, CarState.update cfgZ sZ10 cp0 cam0 fv0 = .ok r := ⟨_, rfl⟩
    obtain ⟨h1, -, -, -, h5⟩ :=
      C3_zss_permanent_disable.1 cfgZ sZ10 cp0 cam0 fv0 r hok (by decide)
    have hangle : (steeringStage sZ10 cp0).angle = 2 := by
      norm_num [steeringStage, sZ10, s0, cp0]
    have hsa : r.2.1.steeringAngleDeg = 2 := h5.trans hangle
    have hc : r.1.zss_threshold_count = 10 := by rw [h1]; rfl
    rw [hok]
    simp [Except.map, hc, hsa]
  · obtain ⟨p, hrun⟩ : ∃ p, CarState.run cfgZ sZ10 [tickQuiet] = some p := ⟨_, rfl⟩
    obtain ⟨g1, -, -, -⟩ :=
      C3_zss_permanent_disable.2 cfgZ sZ10 [tickQuiet] p hrun (by decide)
    have g : p.1.zss_threshold_count = 10 := by rw [g1]; rfl
    rw [hrun]
    simp [g]

/-- Helper: the ZSS block's fields on a tick entering the guarded block. -/
lemma zss_active_fields (cfg : CarConfig) (s : EngineState) (cp : MainFrame)
    (cam : CamFrame) (fv : FrogPilotVariables)
    (r : EngineState × VehicleState × List FpfEvent)
    (hz : cfg.flagZSS = true)
    (hcount : s.zss_threshold_count < ZSS_THRESHOLD_COUNT)
    (hok : CarState.update cfg s cp cam fv = .ok r) :
    r.1.zss_compute = (zssStage s (selectCruiseAvailable cfg cp)
      cp.secondarySteerAngle (steeringStage s cp).angle).compute ∧
    r.1.zss_cruise_active_last = (zssStage s (selectCruiseAvailable cfg cp)
      cp.secondarySteerAngle (steeringStage s cp).angle).last ∧
    r.1.zss_angle_offset = (zssStage s (selectCruiseAvailable cfg cp)
      cp.secondarySteerAngle (steeringStage s cp).angle).offset ∧
    r.1.zss_threshold_count = (zssStage s (selectCruiseAvailable cfg cp)
      cp.secondarySteerAngle (steeringStage s cp).angle).count ∧
    r.2.1.steeringAngleDeg = (zssStage s (selectCruiseAvailable cfg cp)
      cp.secondarySteerAngle (steeringStage s cp).angle).angle := by
  simp only [CarState.update] at hok
  split at hok
  · exact Except.noConfusion hok
  · split at hok
    · exact Except.noConfusion hok
    · injection hok with hok
      subst hok
      simp only [if_pos (And.intro hz hcount)]
      simp

/-- Helper: the edge-tracking field always records this tick's cruise
availability once the guarded block runs. -/
lemma zssStage_last (s : EngineState) (avail : Bool) (zorro angle1 : ℚ) :
    (zssStage s avail zorro angle1).last = avail := by
  simp only [zssStage]
  split <;> split <;> split <;> rfl

/-- Helper: the ZSS block on a cruise-availability rising edge: fault
counter discarded (post-tick value at most 1) and the offset recomputed
exactly when both readings clear the magnitude threshold. -/
lemma zssStage_edge_char (s : EngineState) (avail : Bool) (zorro angle1 : ℚ)
    (ha : avail = true) (hl : s.zss_cruise_active_last = false) :
    (if |angle1| > 1 / 1000 ∧ |zorro| > 1 / 1000 then
      (zssStage s avail zorro angle1).offset = zorro - angle1 ∧
        (zssStage s avail zorro angle1).compute = false
    else
      (zssStage s avail zorro angle1).offset = s.zss_angle_offset ∧
        (zssStage s avail zorro angle1).compute = true) ∧
    (zssStage s avail zorro angle1).count ≤ 1 := by
  subst ha
  by_cases hc : |angle1| > 1 / 1000 ∧ |zorro| > 1 / 1000
  · rw [if_pos hc]
    refine ⟨⟨?_, ?_⟩, ?_⟩ <;> (simp [zssStage, hl, hc]; (try (split <;> simp_all)); (try (split <;> simp_all)))
  · rw [if_neg hc]
    refine ⟨⟨?_, ?_⟩, ?_⟩ <;> (simp [zssStage, hl, hc]; (try (split <;> simp_all)); (try (split <;> simp_all)))

/-- Helper: the ZSS block on a tick without a rising edge: the offset is
recomputed exactly when a recompute is pending and both readings clear the
magnitude threshold, and the pending flag is otherwise preserved. -/
lemma zssStage_noedge_char (s : EngineState) (avail : Bool) (zorro angle1 : ℚ)
    (hne : ¬(avail = true ∧ s.zss_cruise_active_last = false)) :
    if s.zss_compute = true ∧ |angle1| > 1 / 1000 ∧ |zorro| > 1 / 1000 then
      (zssStage s avail zorro angle1).offset = zorro - angle1 ∧
        (zssStage s avail zorro angle1).compute = false
    else
      (zssStage s avail zorro angle1).offset = s.zss_angle_offset ∧
        (zssStage s avail zorro angle1).compute = s.zss_compute := by
  by_cases hc : s.zss_compute = true ∧ |angle1| > 1 / 1000 ∧ |zorro| > 1 / 1000
  · rw [if_pos hc]
    constructor <;> (simp [zssStage, hne, hc.1, hc.2.1, hc.2.2]; (try (split <;> simp_all)); (try (split <;> simp_all)))
  · rw [if_neg hc]
    constructor <;> (simp [zssStage, hne, hc]; (try (split <;> simp_all)); (try (split <;> simp_all)))

/-- Helper: a tick with no recompute pending and no cruise-availability
rising edge leaves the ZSS offset untouched and the pending flag clear,
whether or not the guarded block runs. -/
lemma zss_quiet_tick (cfg : CarConfig) (s : EngineState) (cp : MainFrame)
    (cam : CamFrame) (fv : FrogPilotVariables)
    (r : EngineState × VehicleState × List FpfEvent)
    (hok : CarState.update cfg s cp cam fv = .ok r)
    (hcomp : s.zss_compute = false)
    (hlast : selectCruiseAvailable cfg cp = s.zss_cruise_active_last) :
    r.1.zss_angle_offset = s.zss_angle_offset ∧ r.1.zss_compute = false ∧
    r.1.zss_cruise_active_last = s.zss_cruise_active_last := by
  by_cases hact : cfg.flagZSS = true ∧ s.zss_threshold_count < ZSS_THRESHOLD_COUNT
  · have hne : ¬(selectCruiseAvailable cfg cp = true ∧
        s.zss_cruise_active_last = false) := by
      rintro ⟨h1, h2⟩
      rw [h1, h2] at hlast
      exact Bool.noConfusion hlast
    obtain ⟨e1, e2, e3, e4, e5⟩ :=
      zss_active_fields cfg s cp cam fv r hact.1 hact.2 hok
    have hcond : ¬(s.zss_compute = true ∧
        |(steeringStage s cp).angle| > 1 / 1000 ∧
        |cp.secondarySteerAngle| > 1 / 1000) := by
      rintro ⟨h, -⟩
      rw [hcomp] at h
      exact Bool.noConfusion h
    have hch := zssStage_noedge_char s (selectCruiseAvailable cfg cp)
      cp.secondarySteerAngle (steeringStage s cp).angle hne
    rw [if_neg hcond] at hch
    obtain ⟨o1, o2⟩ := hch
    refine ⟨e3.trans o1, ?_, ?_⟩
    · rw [e1, o2, hcomp]
    · rw [e2, zssStage_last, hlast]
  · simp only [CarState.update] at hok
    split at hok
    · exact Except.noConfusion hok
    · split at hok
      · exact Except.noConfusion hok
      · injection hok with hok
        subst hok
        simp only [if_neg hact]
        exact ⟨trivial, hcomp, trivial⟩

/-- C4: ZSS offset recomputation per cruise-availability rising edge.  On
every guarded tick the edge-tracking flag records this tick's cruise
availability.  On a rising-edge tick (counter below the cap) the fault
counter is reset — whatever it was, the post-tick value is at most 1 — and
the recompute is armed: the offset becomes (secondary − primary) at once
when both readings clear the 1e-3 magnitude threshold, else it is left and
the recompute stays pending.  On a tick without a rising edge the offset is
recomputed exactly when a recompute is pending and both readings clear the
threshold, and is otherwise unchanged.  Consequently (third part), along
any run without rising edges and with no recompute pending, the offset is
never recomputed — so each rising edge causes at most one recomputation,
at the first qualifying tick after it. -/
theorem C4_zss_edge_recompute :
    (∀ cfg s cp cam fv r, cfg.flagZSS = true →
      s.zss_threshold_count < ZSS_THRESHOLD_COUNT →
      CarState.update cfg s cp cam fv = .ok r →
      r.1.zss_cruise_active_last = selectCruiseAvailable cfg cp ∧
      (selectCruiseAvailable cfg cp = true → s.zss_cruise_active_last = false →
        r.1.zss_threshold_count ≤ 1 ∧
        (if |(steeringStage s cp).angle| > 1 / 1000 ∧
            |cp.secondarySteerAngle| > 1 / 1000 then
          r.1.zss_angle_offset =
            cp.secondarySteerAngle - (steeringStage s cp).angle ∧
          r.1.zss_compute = false
        else r.1.zss_angle_offset = s.zss_angle_offset ∧
          r.1.zss_compute = true)) ∧
      (¬(selectCruiseAvailable cfg cp = true ∧
          s.zss_cruise_active_last = false) →
        (if s.zss_compute = true ∧ |(steeringStage s cp).angle| > 1 / 1000 ∧
            |cp.secondarySteerAngle| > 1 / 1000 then
          r.1.zss_angle_offset =
            cp.secondarySteerAngle - (steeringStage s cp).angle ∧
          r.1.zss_compute = false
        else r.1.zss_angle_offset = s.zss_angle_offset ∧
          r.1.zss_compute = s.zss_compute))) ∧
    (∀ cfg s inputs p, s.zss_compute = false →
      (∀ i ∈ inputs, selectCruiseAvailable cfg i.cp = s.zss_cruise_active_last) →
      CarState.run cfg s inputs = some p →
      p.1.zss_angle_offset = s.zss_angle_offset ∧ p.1.zss_compute = false ∧
      p.1.zss_cruise_active_last = s.zss_cruise_active_last) := by
  constructor
  · intro cfg s cp cam fv r hz hcount hok
    obtain ⟨e1, e2, e3, e4, e5⟩ := zss_active_fields cfg s cp cam fv r hz hcount hok
    refine ⟨?_, fun ha hl => ?_, fun hne => ?_⟩
    · rw [e2, zssStage_last]
    · obtain ⟨hif, hcnt⟩ := zssStage_edge_char s (selectCruiseAvailable cfg cp)
        cp.secondarySteerAngle (steeringStage s cp).angle ha hl
      refine ⟨by rw [e4]; exact hcnt, ?_⟩
      rw [e3, e1]
      exact hif
    · have hch := zssStage_noedge_char s (selectCruiseAvailable cfg cp)
        cp.secondarySteerAngle (steeringStage s cp).angle hne
      rw [e3, e1]
      exact hch
  · intro cfg s inputs
    induction inputs generalizing s with
    | nil =>
      intro p hcomp hall hrun
      simp only [CarState.run] at hrun
      injection hrun with hrun
      subst hrun
      exact ⟨rfl, hcomp, rfl⟩
    | cons i rest ih =>
      intro p hcomp hall hrun
      simp only [CarState.run] at hrun
      split at hrun
      · exact Option.noConfusion hrun
      · rename_i s1 ret1 evs1 htrip
        split at hrun
        · exact Option.noConfusion hrun
        · rename_i pr s2 evs2 hpr
          injection hrun with hrun
          subst hrun
          have hlast_i : selectCruiseAvailable cfg i.cp = s.zss_cruise_active_last :=
            hall i (by simp)
          obtain ⟨o1, o2, o3⟩ := zss_quiet_tick cfg s i.cp i.cam i.fv
            (s1, ret1, evs1) htrip hcomp hlast_i
          have hall1 : ∀ j ∈ rest,
              selectCruiseAvailable cfg j.cp = s1.zss_cruise_active_last := by
            intro j hj
            rw [o3]
            exact hall j (by simp [hj])
          obtain ⟨g1, g2, g3⟩ := ih s1 (s2, evs2) o2 hall1 hpr
          exact ⟨g1.trans o1, g2, g3.trans o3⟩

/-- Witness for C4: a rising edge on the TSS2+ZSS fixture (primary angle
2, secondary 1, both above 1e-3) recomputes the offset to −1, clears the
pending flag, records cruise availability; and a one-tick edge-free run
with no pending recompute leaves the startup offset 0 untouched. -/
theorem C4_zss_edge_recompute_witness :
    (CarState.update cfgZT s0 cpAvail cam0 fv0).map
      (fun r => (r.1.zss_angle_offset, r.1.zss_compute,
        r.1.zss_cruise_active_last)) = .ok (-1, false, true) ∧
    (CarState.run cfgZT s0 [tickQuiet]).map
      (fun p => (p.1.zss_angle_offset, p.1.zss_compute)) = some (0, false) := by
  constructor
  · obtain ⟨r, hok⟩ : ∃ r, CarState.update cfgZT s0 cpAvail cam0 fv0 = .ok r := ⟨_, rfl⟩
    obtain ⟨e_last, hedge, -⟩ :=
      C4_zss_edge_recompute.1 cfgZT s0 cpAvail cam0 fv0 r rfl (by decide) hok
    have ha : selectCruiseAvailable cfgZT cpAvail = true := by decide
    obtain ⟨hcnt, hif⟩ := hedge ha rfl
    have hangle : (steeringStage s0 cpAvail).angle = 2 := by
      norm_num [steeringStage, s0, cpAvail, cp0]
    have hcond : |(steeringStage s0 cpAvail).angle| > 1 / 1000 ∧
        |cpAvail.secondarySteerAngle| > 1 / 1000 := by
      rw [hangle]
      constructor <;> norm_num [cpAvail, cp0]
    rw [if_pos hcond] at hif
    obtain ⟨hoffv, hcompv⟩ := hif
    have hoffv2 : r.1.zss_angle_offset = -1 := by
      rw [hoffv, hangle]
      norm_num [cpAvail, cp0]
    have hlastv : r.1.zss_cruise_active_last = true := by rw [e_last, ha]
    rw [hok]
    simp [Except.map, hoffv2, hcompv, hlastv]
  · obtain ⟨p, hrun⟩ : ∃ p, CarState.run cfgZT s0 [tickQuiet] = some p := ⟨_, rfl⟩
    have hall : ∀ i ∈ [tickQuiet],
        selectCruiseAvailable cfgZT i.cp = s0.zss_cruise_active_last := by
      intro i hi
      simp only [List.mem_singleton] at hi
      subst hi
      decide
    obtain ⟨g1, g2, -⟩ :=
      C4_zss_edge_recompute.2 cfgZT s0 [tickQuiet] p rfl hall hrun
    have g1v : p.1.zss_angle_offset = 0 := by rw [g1]; rfl
    rw [hrun]
    simp [g1v, g2]

/-- Helper: the distance-button block on a held tick (cruise available,
nonzero reading): the counter increments and the only event is the
alternate-mode toggle at the exact `CRUISE_LONG_PRESS` crossing. -/
lemma distanceStage_held (fv : FrogPilotVariables) (d : ℚ) (cnt : ℕ)
    (prev : Bool) (pers prevp : ℤ) (rest : Bool)
    (hd0 : d ≠ 0) (hdist : fv.experimental_mode_via_distance = true)
    (h250 : cnt + 1 ≠ CRUISE_LONG_PRESS * 5) :
    distanceStage fv true (some d) cnt prev pers prevp rest =
      .ok ⟨cnt + 1, true, prevp, rest,
        if cnt + 1 = CRUISE_LONG_PRESS then [toggleEv fv] else []⟩ := by
  simp [distanceStage, hd0, hdist, h250, toggleEv]

/-- Helper: the distance-button block on a release tick (cruise available,
zero reading, previously pressed): the counter resets and a single
personality-cycle event fires exactly when the hold was shorter than
`CRUISE_LONG_PRESS`. -/
lemma distanceStage_release (fv : FrogPilotVariables) (cnt : ℕ)
    (pers prevp : ℤ) (rest : Bool) :
    distanceStage fv true (some 0) cnt true pers prevp rest =
      .ok ⟨0, false,
        (if cnt < CRUISE_LONG_PRESS then (pers + 2) % 3 else prevp),
        (if cnt < CRUISE_LONG_PRESS then false else rest),
        (if cnt < CRUISE_LONG_PRESS
          then [FpfEvent.distanceButtonFunction ((pers + 2) % 3)] else [])⟩ := by
  have h50 : ¬((0 : ℕ) = CRUISE_LONG_PRESS ∧ fv.experimental_mode_via_distance = true) := by
    rintro ⟨h, -⟩
    exact absurd h (by decide)
  have h250 : ¬((0 : ℕ) = CRUISE_LONG_PRESS * 5 ∧ fv.traffic_mode = true) := by
    rintro ⟨h, -⟩
    exact absurd h (by decide)
  by_cases hc : cnt < CRUISE_LONG_PRESS
  · simp [distanceStage, hc, h50, h250]
    intro h
    exact absurd h (by decide)
  · simp [distanceStage, hc, h50, h250]
    intro h
    exact absurd h (by decide)

/-- Helper: after the traffic-sign accumulator ran on a camera frame whose
assembled set is all-absent, the derived speed limit is 0 (no error) when
the imperial override is off. -/
lemma calculate_after_uts (s : EngineState) (cam : CamFrame)
    (fv : FrogPilotVariables)
    (hrsa : assembleTrafficSignals cam = emptyRsa)
    (hforce : fv.force_mph_dashboard = false) :
    CarState.calculate_speed_limit (CarState.update_traffic_signals s cam) fv =
      .ok 0 := by
  simp [CarState.calculate_speed_limit, uts_traffic_signals, hrsa, emptyRsa, hforce]

/-- Helper: one held distance-button tick under the C6 side conditions:
the tick succeeds, the press counter increments, the previous-press flag
sets, the personality index is untouched, and the only event is the
alternate-mode toggle, fired exactly when the counter reaches
`CRUISE_LONG_PRESS`. -/
lemma held_tick_step (cfg : CarConfig) (fv : FrogPilotVariables)
    (s : EngineState) (i : TickInput)
    (hT : cfg.inTSS2 = true) (hR : cfg.inRadarACC = false)
    (hlkas : fv.experimental_mode_via_lkas = false)
    (hwheel : fv.personalities_via_wheel = false)
    (hforce : fv.force_mph_dashboard = false)
    (hdist : fv.experimental_mode_via_distance = true)
    (hi : heldInput cfg fv i)
    (hcnt : s.distance_pressed_counter + 1 < CRUISE_LONG_PRESS * 5) :
    ∃ r, CarState.update cfg s i.cp i.cam i.fv = .ok r ∧
      r.1.distance_pressed_counter = s.distance_pressed_counter + 1 ∧
      r.1.distance_previously_pressed = true ∧
      r.1.personality_profile = s.personality_profile ∧
      r.2.2 = (if s.distance_pressed_counter + 1 = CRUISE_LONG_PRESS
        then [toggleEv fv] else []) := by
  obtain ⟨hfv, havail, hd0, hrsa⟩ := hi
  have h250 : s.distance_pressed_counter + 1 ≠ CRUISE_LONG_PRESS * 5 :=
    Nat.ne_of_lt hcnt
  have hds := distanceStage_held fv i.cam.accControlDistance
    s.distance_pressed_counter s.distance_previously_pressed
    s.personality_profile s.previous_personality_profile s.profile_restored
    hd0 hdist h250
  simp [CarState.update, hfv, havail, hT, hR, hds, calculate_after_uts, hrsa,
    hforce, lkasStage, hlkas, personalityStage, hwheel]

/-- Helper: one release tick (cruise available, distance reading 0,
previously pressed) under the C6 side conditions: the counter resets and
the only event is a single personality-cycle call, fired exactly when the
hold lasted fewer than `CRUISE_LONG_PRESS` ticks. -/
lemma release_tick_step (cfg : CarConfig) (fv : FrogPilotVariables)
    (s : EngineState) (i : TickInput)
    (hT : cfg.inTSS2 = true) (hR : cfg.inRadarACC = false)
    (hlkas : fv.experimental_mode_via_lkas = false)
    (hwheel : fv.personalities_via_wheel = false)
    (hforce : fv.force_mph_dashboard = false)
    (hi : releaseInput cfg fv i)
    (hprev : s.distance_previously_pressed = true) :
    ∃ r, CarState.update cfg s i.cp i.cam i.fv = .ok r ∧
      r.1.distance_pressed_counter = 0 ∧
      r.2.2 = (if s.distance_pressed_counter < CRUISE_LONG_PRESS
        then [FpfEvent.distanceButtonFunction ((s.personality_profile + 2) % 3)]
        else []) := by
  obtain ⟨hfv, havail, hd0, hrsa⟩ := hi
  have hds := distanceStage_release fv s.distance_pressed_counter
    s.personality_profile s.previous_personality_profile s.profile_restored
  simp [CarState.update, hfv, havail, hT, hR, hprev, hd0, hds,
    calculate_after_uts, hrsa, hforce, lkasStage, hlkas, personalityStage,
    hwheel]

/-- Helper: a run over concatenated input lists is the composition of the
two runs, with the event logs concatenated. -/
lemma run_append (cfg : CarConfig) (xs : List TickInput) :
    ∀ (s : EngineState) (ys : List TickInput),
      CarState.run cfg s (xs ++ ys) =
        (match CarState.run cfg s xs with
         | none => none
         | some (s1, e1) =>
           match CarState.run cfg s1 ys with
           | none => none
           | some (s2, e2) => some (s2, e1 ++ e2)) := by
  induction xs with
  | nil =>
    intro s ys
    simp only [List.nil_append, CarState.run]
    cases h : CarState.run cfg s ys with
    | none => rfl
    | some p =>
      obtain ⟨s2, e2⟩ := p
      simp
  | cons i rest ih =>
    intro s ys
    simp only [List.cons_append, CarState.run]
    cases h : CarState.update cfg s i.cp i.cam i.fv with
    | error e => rfl
    | ok trip =>
      obtain ⟨s1, r1, e1⟩ := trip
      simp only [List.append_eq, ih]
      cases h2 : CarState.run cfg s1 rest with
      | none => rfl
      | some q =>
        obtain ⟨s2, e2⟩ := q
        dsimp only
        cases h3 : CarState.run cfg s2 ys with
        | none => simp
        | some w =>
          obtain ⟨s3, e3⟩ := w
          simp

/-- Helper: a run of consecutively held distance-button ticks under the C6
side conditions: the counter advances by the length of the run, the
previous-press flag ends set (for a nonempty run), the personality index is
untouched, and the event log holds exactly one alternate-mode toggle —
present precisely when the counter crosses `CRUISE_LONG_PRESS` during the
run — and nothing else. -/
lemma held_run (cfg : CarConfig) (fv : FrogPilotVariables)
    (hT : cfg.inTSS2 = true) (hR : cfg.inRadarACC = false)
    (hlkas : fv.experimental_mode_via_lkas = false)
    (hwheel : fv.personalities_via_wheel = false)
    (hforce : fv.force_mph_dashboard = false)
    (hdist : fv.experimental_mode_via_distance = true) :
    ∀ (inputs : List TickInput) (s : EngineState),
      (∀ i ∈ inputs, heldInput cfg fv i) →
      s.distance_pressed_counter + inputs.length ≤ CRUISE_LONG_PRESS →
      ∃ p, CarState.run cfg s inputs = some p ∧
        p.1.distance_pressed_counter =
          s.distance_pressed_counter + inputs.length ∧
        (inputs.length = 0 →
          p.1.distance_previously_pressed = s.distance_previously_pressed) ∧
        (inputs.length ≠ 0 → p.1.distance_previously_pressed = true) ∧
        p.1.personality_profile = s.personality_profile ∧
        p.2 = (if s.distance_pressed_counter + inputs.length = CRUISE_LONG_PRESS ∧
            inputs.length ≠ 0 then [toggleEv fv] else []) := by
  intro inputs
  induction inputs with
  | nil =>
    intro s hall hle
    exact ⟨(s, []), rfl, by simp, fun _ => rfl, by simp, rfl, by simp⟩
  | cons i rest ih =>
    intro s hall hle
    have hi : heldInput cfg fv i := hall i (by simp)
    have hcnt : s.distance_pressed_counter + 1 < CRUISE_LONG_PRESS * 5 := by
      simp only [List.length_cons] at hle
      have h5 : CRUISE_LONG_PRESS < CRUISE_LONG_PRESS * 5 := by decide
      omega
    obtain ⟨r, hok, hc1, hp1, hpers1, hev1⟩ :=
      held_tick_step cfg fv s i hT hR hlkas hwheel hforce hdist hi hcnt
    obtain ⟨s1, ret1, evs1⟩ := r
    simp only at hc1 hp1 hpers1 hev1
    have hall1 : ∀ j ∈ rest, heldInput cfg fv j := fun j hj =>
      hall j (by simp [hj])
    have hle1 : s1.distance_pressed_counter + rest.length ≤ CRUISE_LONG_PRESS := by
      rw [hc1]
      simp only [List.length_cons] at hle
      omega
    obtain ⟨p, hrunr, gc, gp0, gp1, gpers, gev⟩ := ih s1 hall1 hle1
    refine ⟨(p.1, evs1 ++ p.2), ?_, ?_, ?_, ?_, ?_, ?_⟩
    · simp [CarState.run, hok, hrunr]
    · simp only [List.length_cons]
      rw [gc, hc1]
      omega
    · intro h0
      exact absurd h0 (by simp)
    · intro _
      by_cases hz : rest.length = 0
      · rw [gp0 hz, hp1]
      · exact gp1 hz
    · exact gpers.trans hpers1
    · rw [hev1, gev, hc1]
      simp only [List.length_cons]
      by_cases hA : s.distance_pressed_counter + 1 = CRUISE_LONG_PRESS
      · have hz : rest.length = 0 := by
          simp only [List.length_cons] at hle
          omega
        simp [hA, hz]
      · have hiff : (s.distance_pressed_counter + 1 + rest.length =
            CRUISE_LONG_PRESS ∧ ¬rest.length = 0) ↔
            s.distance_pressed_counter + (rest.length + 1) =
              CRUISE_LONG_PRESS := by
          constructor
          · rintro ⟨a, -⟩
            omega
          · intro a
            exact ⟨by omega, fun hz => hA (by omega)⟩
        simp [hA]
        exact if_congr hiff rfl rfl

/-- C6: while cruise is available, the distance button is wired (TSS2
non-radar-ACC), the experimental-via-distance flag is on and the LKAS /
wheel-personality paths are off: a button held for exactly
`CRUISE_LONG_PRESS` consecutive ticks and then released emits exactly one
alternate-mode (experimental) toggle event and no personality-cycle event;
a button held for `CRUISE_LONG_PRESS - 1` ticks and then released emits
exactly one personality-cycle event, advancing the profile by +2 modulo 3,
and no toggle event.  Each crossing fires at most once per hold: the
whole run's event log is exactly the one event. -/
theorem C6_distance_button_gesture :
    (∀ cfg fv s inputs rel p,
      cfg.inTSS2 = true → cfg.inRadarACC = false →
      fv.experimental_mode_via_lkas = false →
      fv.personalities_via_wheel = false →
      fv.force_mph_dashboard = false →
      fv.experimental_mode_via_distance = true →
      (∀ i ∈ inputs, heldInput cfg fv i) →
      inputs.length = CRUISE_LONG_PRESS →
      releaseInput cfg fv rel →
      s.distance_pressed_counter = 0 →
      CarState.run cfg s (inputs ++ [rel]) = some p →
      p.2 = [toggleEv fv]) ∧
    (∀ cfg fv s inputs rel p,
      cfg.inTSS2 = true → cfg.inRadarACC = false →
      fv.experimental_mode_via_lkas = false →
      fv.personalities_via_wheel = false →
      fv.force_mph_dashboard = false →
      fv.experimental_mode_via_distance = true →
      (∀ i ∈ inputs, heldInput cfg fv i) →
      inputs.length = CRUISE_LONG_PRESS - 1 →
      releaseInput cfg fv rel →
      s.distance_pressed_counter = 0 →
      CarState.run cfg s (inputs ++ [rel]) = some p →
      p.2 = [FpfEvent.distanceButtonFunction
        ((s.personality_profile + 2) % 3)]) := by
  constructor
  · intro cfg fv s inputs rel p hT hR hlkas hwheel hforce hdist hheld hlen hrel hc0 hrun
    obtain ⟨q, hrunq, qc, -, qp1, qpers, qev⟩ :=
      held_run cfg fv hT hR hlkas hwheel hforce hdist inputs s hheld
        (by rw [hc0, hlen]; omega)
    obtain ⟨q1, qe⟩ := q
    simp only at hrunq qc qp1 qpers qev
    have hprevq : q1.distance_previously_pressed = true :=
      qp1 (by rw [hlen]; decide)
    obtain ⟨r, hokr, rc, rev⟩ := release_tick_step cfg fv q1 rel hT hR hlkas
      hwheel hforce hrel hprevq
    obtain ⟨r1, ret1, e1⟩ := r
    simp only at rc rev
    have hq2 : qe = [toggleEv fv] := by
      rw [qev, hc0, hlen]
      rw [if_pos (show 0 + CRUISE_LONG_PRESS = CRUISE_LONG_PRESS ∧
        CRUISE_LONG_PRESS ≠ 0 from by decide)]
    have he1 : e1 = [] := by
      rw [rev, qc, hc0, hlen]
      rw [if_neg (show ¬(0 + CRUISE_LONG_PRESS < CRUISE_LONG_PRESS) from by decide)]
    rw [run_append, hrunq] at hrun
    dsimp only at hrun
    simp only [CarState.run] at hrun
    rw [hokr] at hrun
    dsimp only at hrun
    injection hrun with hrun
    subst hrun
    simp [hq2, he1]
  · intro cfg fv s inputs rel p hT hR hlkas hwheel hforce hdist hheld hlen hrel hc0 hrun
    obtain ⟨q, hrunq, qc, -, qp1, qpers, qev⟩ :=
      held_run cfg fv hT hR hlkas hwheel hforce hdist inputs s hheld
        (by rw [hc0, hlen]; omega)
    obtain ⟨q1, qe⟩ := q
    simp only at hrunq qc qp1 qpers qev
    have hprevq : q1.distance_previously_pressed = true :=
      qp1 (by rw [hlen]; decide)
    obtain ⟨r, hokr, rc, rev⟩ := release_tick_step cfg fv q1 rel hT hR hlkas
      hwheel hforce hrel hprevq
    obtain ⟨r1, ret1, e1⟩ := r
    simp only at rc rev
    have hq2 : qe = [] := by
      rw [qev, hc0, hlen]
      rw [if_neg (show ¬(0 + (CRUISE_LONG_PRESS - 1) = CRUISE_LONG_PRESS ∧
        (CRUISE_LONG_PRESS - 1 : ℕ) ≠ 0) from by decide)]
    have he1 : e1 = [FpfEvent.distanceButtonFunction
        ((s.personality_profile + 2) % 3)] := by
      rw [rev, qc, hc0, hlen, qpers]
      rw [if_pos (show 0 + (CRUISE_LONG_PRESS - 1) < CRUISE_LONG_PRESS from
        by decide)]
    rw [run_append, hrunq] at hrun
    dsimp only at hrun
    simp only [CarState.run] at hrun
    rw [hokr] at hrun
    dsimp only at hrun
    injection hrun with hrun
    subst hrun
    simp [hq2, he1]

/-- Witness for C6: on the TSS2 fixture, holding the distance button for
exactly 50 ticks then releasing emits exactly one experimental-mode
toggle; holding for 49 ticks then releasing emits exactly one
personality-cycle event for profile (0+2)%3 = 2. -/
theorem C6_distance_button_gesture_witness :
    (CarState.run cfgT s0
      (List.replicate CRUISE_LONG_PRESS tickHeld ++ [tickRelease])).map
        Prod.snd = some [toggleEv fvDist] ∧
    (CarState.run cfgT s0
      (List.replicate (CRUISE_LONG_PRESS - 1) tickHeld ++ [tickRelease])).map
        Prod.snd = some [FpfEvent.distanceButtonFunction
          ((s0.personality_profile + 2) % 3)] := by
  have hheld : ∀ n, ∀ i ∈ List.replicate n tickHeld, heldInput cfgT fvDist i := by
    intro n i hi
    rw [List.eq_of_mem_replicate hi]
    exact ⟨rfl, by decide, by decide, rfl⟩
  have hrel : releaseInput cfgT fvDist tickRelease := ⟨rfl, by decide, rfl, rfl⟩
  constructor
  · obtain ⟨p, hrun⟩ : ∃ p, CarState.run cfgT s0
        (List.replicate CRUISE_LONG_PRESS tickHeld ++ [tickRelease]) = some p :=
      ⟨_, rfl⟩
    have h := C6_distance_button_gesture.1 cfgT fvDist s0
      (List.replicate CRUISE_LONG_PRESS tickHeld) tickRelease p
      rfl rfl rfl rfl rfl rfl (hheld CRUISE_LONG_PRESS) (by simp) hrel rfl hrun
    rw [hrun]
    simp [h]
  · obtain ⟨p, hrun⟩ : ∃ p, CarState.run cfgT s0
        (List.replicate (CRUISE_LONG_PRESS - 1) tickHeld ++ [tickRelease]) = some p :=
      ⟨_, rfl⟩
    have h := C6_distance_button_gesture.2 cfgT fvDist s0
      (List.replicate (CRUISE_LONG_PRESS - 1) tickHeld) tickRelease p
      rfl rfl rfl rfl rfl rfl (hheld (CRUISE_LONG_PRESS - 1)) (by simp) hrel rfl hrun
    rw [hrun]
    simp [h]
